import Mathlib

/-!
Shallow embedding of the generation orchestration layer of the AI-PICTURE-AUTO
repository (components/ImageGenerator.tsx, App.tsx, types.ts).  Pure data and
the control flow of generateSingleImage, handleStartGeneration, processQueue,
handleRemoveKey and handleAddKeys are translated into executable Lean
definitions; network effects are abstracted by oracle functions that give the
outcome of each external call.
-/

/-- Status of a generation task, from types.ts (GenerationStatus). -/
inductive GenerationStatus where
  | pending
  | generating
  | success
  | error
deriving DecidableEq

/-- One per-item result record, from types.ts (ImageResult). -/
structure ImageResult where
  id : String
  prompt : String
  imageUrl : Option String
  status : GenerationStatus
  error : Option String
deriving DecidableEq

/-- Shape of a caught provider error, reduced to the observations the code
makes on it.  The Boolean fields record whether the corresponding signal is
present in the error payload, mirroring the tests in the catch block of
generateSingleImage: error.error.code equal to 429, error.error.code equal
to the string rate_limit_exceeded, error.error.status equal to
RESOURCE_EXHAUSTED, and whether the JSON rendering of the error contains the
substrings quota exceeded or billed users.  nestedMessage models
error.error.message when present; message models error.message (with the
best-effort JSON extraction the code performs on it already folded in). -/
structure ApiError where
  code429 : Bool
  rateLimitCode : Bool
  resourceExhausted : Bool
  quotaExceededText : Bool
  billedUsersText : Bool
  nestedMessage : Option String
  message : String
deriving DecidableEq

/-- Classification of a failure as rate limited, from the catch block of
generateSingleImage (isRateLimitError). -/
def isRateLimitError (e : ApiError) : Bool :=
  e.code429 || e.rateLimitCode || e.resourceExhausted || e.quotaExceededText ||
    e.billedUsersText

/-- Best-effort message extraction, from the handleError helper inside
generateSingleImage.  For google the nested error message is preferred; for
openai it is additionally tagged; otherwise error.message is used, with the
fallback text for an empty message. -/
def handleError (provider : String) (e : ApiError) : String :=
  if provider = "google" then
    match e.nestedMessage with
    | some m => m
    | none => if e.message = "" then "An unknown error occurred" else e.message
  else
    match e.nestedMessage with
    | some m => "OpenAI Error: " ++ m
    | none => if e.message = "" then "An unknown error occurred" else e.message

/-- The error thrown by generateSingleImage when the provider returns no
image bytes (content-safety rejection): a plain Error carrying only a
message, hence with none of the rate-limit signals set. -/
def safetyRejectionError : ApiError :=
  { code429 := false, rateLimitCode := false, resourceExhausted := false,
    quotaExceededText := false, billedUsersText := false, nestedMessage := none,
    message := "No image was returned from the API. This is often caused by safety filters. Try rewriting the prompt." }

/-- Outcome of one executor call (the provider image-generation request). -/
inductive ExecOutcome where
  | success (imageUrl : String)
  | failure (e : ApiError)
deriving DecidableEq

/-- Outcome of one anonymization call (the gemini text request inside
anonymizePrompt): either the call throws, or it returns a text. -/
inductive AnonOutcome where
  | throws
  | returns (text : String)
deriving DecidableEq

/-- Translation of anonymizePrompt.  If there is no AI instance the prompt is
returned unchanged; otherwise the call outcome is inspected: a thrown error
falls back to the original prompt, a returned text is trimmed and used only
when non-empty. -/
def anonymizePrompt (hasInstance : Bool) (outcome : AnonOutcome)
    (prompt : String) : String :=
  if !hasInstance then prompt
  else
    match outcome with
    | AnonOutcome.throws => prompt
    | AnonOutcome.returns t => if t.trim = "" then prompt else t.trim

/-- The configuration captured by the generateSingleImage closure: the
selected provider, the manual-selection flag, the size of the key pool of the
selected provider, the operator-selected key index (activeKeyIndices of the
provider), the anonymize toggle, the number of google keys, and whether
googleInstances at the google cursor exists. -/
structure GenConfig where
  provider : String
  isManualKeySelection : Bool
  poolSize : Nat
  activeKeyIndex : Nat
  anonymizeEnabled : Bool
  googleKeyCount : Nat
  googleCursorValid : Bool
deriving DecidableEq

/-- The prompt actually sent to the provider, from the block of
generateSingleImage that runs anonymizePrompt when the toggle is on, at least
one google key exists, and the google instance at the cursor is defined. -/
def promptForApi (cfg : GenConfig) (anon : Nat → AnonOutcome) (attempt : Nat)
    (prompt : String) : String :=
  if cfg.anonymizeEnabled ∧ 0 < cfg.googleKeyCount ∧ cfg.googleCursorValid then
    anonymizePrompt true (anon attempt) prompt
  else prompt

/-- Observable outcome of one generateSingleImage invocation: the returned
record, the rotation cursor (keyIndexRef.current) and the displayed active
key index (activeKeyIndices of the provider) after the call, and the list of
executor calls made, as pairs of key index and prompt. -/
structure GenOutput where
  result : ImageResult
  cursor : Nat
  activeIdx : Nat
  calls : List (Nat × String)
deriving DecidableEq

/-- Body of generateSingleImage.  The recursion of the source (retry with
attempt + 1 on a rate-limited failure in automatic mode) is driven by a fuel
argument so the definition is structural; the fuel never runs out when the
function is entered through generateSingleImage below, because in automatic
mode each recursive call strictly increases attempt, which is bounded by
poolSize.  The executor oracle exec gives the outcome of the call made at a
given attempt number, the anon oracle the outcome of the anonymization call
of that attempt. -/
def gsiGo (cfg : GenConfig) (exec : Nat → ExecOutcome)
    (anon : Nat → AnonOutcome) (task : ImageResult) (cursor : Nat) :
    Nat → Nat → GenOutput
  | attempt, fuel =>
    if cfg.poolSize = 0 then
      { result :=
          { task with status := GenerationStatus.error,
                      error := some ("No API keys provided for " ++ cfg.provider ++ ".") },
        cursor := cursor, activeIdx := cfg.activeKeyIndex, calls := [] }
    else
      let prompt := promptForApi cfg anon attempt task.prompt
      if cfg.isManualKeySelection then
        if 0 < attempt then
          { result :=
              { task with status := GenerationStatus.error,
                          error := some "The manually selected API key is rate-limited or invalid." },
            cursor := cursor, activeIdx := cfg.activeKeyIndex, calls := [] }
        else
          match exec attempt with
          | ExecOutcome.success url =>
            { result :=
                { task with imageUrl := some url,
                            status := GenerationStatus.success, error := none },
              cursor := cursor, activeIdx := cfg.activeKeyIndex,
              calls := [(cfg.activeKeyIndex, prompt)] }
          | ExecOutcome.failure e =>
            { result :=
                { task with status := GenerationStatus.error,
                            error := some (handleError cfg.provider e) },
              cursor := cursor, activeIdx := cfg.activeKeyIndex,
              calls := [(cfg.activeKeyIndex, prompt)] }
      else
        if cfg.poolSize ≤ attempt then
          { result :=
              { task with status := GenerationStatus.error,
                          error := some "All API keys are rate-limited or invalid." },
            cursor := cursor, activeIdx := cfg.activeKeyIndex, calls := [] }
        else
          match exec attempt with
          | ExecOutcome.success url =>
            { result :=
                { task with imageUrl := some url,
                            status := GenerationStatus.success, error := none },
              cursor := (cursor + attempt) % cfg.poolSize,
              activeIdx := (cursor + attempt) % cfg.poolSize,
              calls := [((cursor + attempt) % cfg.poolSize, prompt)] }
          | ExecOutcome.failure e =>
            if isRateLimitError e then
              match fuel with
              | 0 =>
                { result :=
                    { task with status := GenerationStatus.error,
                                error := some "All API keys are rate-limited or invalid." },
                  cursor := cursor, activeIdx := cfg.activeKeyIndex, calls := [] }
              | Nat.succ fuel2 =>
                let rest := gsiGo cfg exec anon task cursor (attempt + 1) fuel2
                { result := rest.result, cursor := rest.cursor,
                  activeIdx := rest.activeIdx,
                  calls := ((cursor + attempt) % cfg.poolSize, prompt) :: rest.calls }
            else
              { result :=
                  { task with status := GenerationStatus.error,
                              error := some (handleError cfg.provider e) },
                cursor := cursor, activeIdx := cfg.activeKeyIndex,
                calls := [((cursor + attempt) % cfg.poolSize, prompt)] }

/-- Translation of generateSingleImage.  The fuel poolSize suffices for the
bounded retry loop starting at any attempt number. -/
def generateSingleImage (cfg : GenConfig) (exec : Nat → ExecOutcome)
    (anon : Nat → AnonOutcome) (task : ImageResult) (cursor attempt : Nat) :
    GenOutput :=
  gsiGo cfg exec anon task cursor attempt cfg.poolSize

/-- Key-list state of App.tsx for one provider, together with the rotation
cursor ref of ImageGenerator.tsx for that provider (keyIndexRef.current). -/
structure KeyPoolState where
  keys : List String
  cursor : Nat
deriving DecidableEq

/-- Translation of handleRemoveKey of App.tsx: the key list of the provider
is filtered; nothing else is touched (in particular the rotation cursor ref
of ImageGenerator.tsx is not reset). -/
def handleRemoveKey (st : KeyPoolState) (keyToRemove : String) : KeyPoolState :=
  { keys := st.keys.filter (fun k => k ≠ keyToRemove), cursor := st.cursor }

/-- Insertion-ordered deduplication, as produced by building a javascript Set
from the concatenated list: the first occurrence of each key is kept. -/
def insertionDedup (l : List String) : List String :=
  l.foldl (fun acc k => if k ∈ acc then acc else acc ++ [k]) []

/-- Translation of handleAddKeys of App.tsx: the new keys are appended with
duplicates suppressed; the rotation cursor ref is not touched. -/
def handleAddKeys (st : KeyPoolState) (newKeys : List String) : KeyPoolState :=
  { keys := insertionDedup (st.keys ++ newKeys), cursor := st.cursor }

/-- One parsed input record for range selection.  The id of a record reaching
handleStartGeneration parses to a number (the upstream parse step filters out
rows whose parseInt is NaN), so the record is represented together with its
parsed numeric id. -/
structure RowN where
  idNum : Int
  prompt : String
deriving DecidableEq

/-- Outcome of pressing start: either a user-facing validation alert, or a
run over the given task list. -/
inductive StartOutcome where
  | validationAlert (msg : String)
  | runStarted (tasks : List RowN)
deriving DecidableEq

/-- The range filter of handleStartGeneration: keep the records whose parsed
numeric id lies between startNum and endNum. -/
def rangeFilter (rows : List RowN) (startNum endNum : Int) : List RowN :=
  rows.filter (fun p => startNum ≤ p.idNum && p.idNum ≤ endNum)

/-- Validation and task-list construction of handleStartGeneration, up to the
point where the worker pool is started.  The range argument is none when both
range fields are blank (no filtering); a present numeric range is filtered
and validated as in the source.  The NaN branch of the source (a non-numeric
or half-blank range) is also a validation alert and is not modelled further. -/
def handleStartGeneration (provider : String) (rows : List RowN)
    (keysCount : Nat) (range : Option (Int × Int)) : StartOutcome :=
  if rows.isEmpty then
    StartOutcome.validationAlert "Please upload a valid CSV file or paste data first."
  else if keysCount = 0 then
    StartOutcome.validationAlert ("Please add at least one API key for " ++ provider ++ ".")
  else
    match range with
    | none => StartOutcome.runStarted rows
    | some (startNum, endNum) =>
      if endNum < startNum then
        StartOutcome.validationAlert "Please provide a valid start and end ID for the generation range."
      else
        let filtered := rangeFilter rows startNum endNum
        if filtered.isEmpty then
          StartOutcome.validationAlert "No prompts found in the specified range."
        else
          StartOutcome.runStarted filtered

/-- One parsed (id, prompt) input record, from types.ts (CsvRow). -/
structure CsvRow where
  id : String
  prompt : String
deriving DecidableEq

/-- The pending record built for a row by handleStartGeneration before the
queue is filled. -/
def initResult (p : CsvRow) : ImageResult :=
  { id := p.id, prompt := p.prompt, imageUrl := none,
    status := GenerationStatus.pending, error := none }

/-- State of the worker pool of processQueue.  Worker identity is irrelevant
to the shared state, so the workers are represented by how many are idle
(between loop iterations), the multiset of tasks currently being processed
(one per busy worker), and how many have terminated. -/
structure PoolState where
  queue : List ImageResult
  nIdle : Nat
  busy : List ImageResult
  nDone : Nat
  results : List ImageResult

/-- The setResults update marking a popped item as generating: every result
record whose id matches is rewritten. -/
def markGenerating (id : String) (rs : List ImageResult) : List ImageResult :=
  rs.map (fun r => if r.id = id then { r with status := GenerationStatus.generating } else r)

/-- The setResults update writing back a finished record: every result record
whose id matches is replaced by the updated record. -/
def writeResult (u : ImageResult) (rs : List ImageResult) : List ImageResult :=
  rs.map (fun r => if r.id = u.id then u else r)

/-- Small-step semantics of the worker loop of processQueue, parameterized by
the terminal record each task is mapped to (the awaited generateSingleImage
call).  pop: an idle worker shifts the head off the shared queue and marks it
generating.  finish: a busy worker writes back the terminal record and loops.
exit: a worker observing an empty queue leaves its loop.  The inter-task
delay suspends a worker without changing shared state and therefore has no
step of its own. -/
inductive PoolStep (process : ImageResult → ImageResult) :
    PoolState → PoolState → Prop where
  | pop (s : PoolState) (t : ImageResult) (rest : List ImageResult)
      (hIdle : 0 < s.nIdle) (hq : s.queue = t :: rest) :
      PoolStep process s
        { queue := rest, nIdle := s.nIdle - 1, busy := t :: s.busy,
          nDone := s.nDone, results := markGenerating t.id s.results }
  | finish (s : PoolState) (t : ImageResult) (b1 b2 : List ImageResult)
      (hb : s.busy = b1 ++ t :: b2) :
      PoolStep process s
        { queue := s.queue, nIdle := s.nIdle + 1, busy := b1 ++ b2,
          nDone := s.nDone, results := writeResult (process t) s.results }
  | exit (s : PoolState) (hIdle : 0 < s.nIdle) (hq : s.queue = []) :
      PoolStep process s
        { queue := s.queue, nIdle := s.nIdle - 1, busy := s.busy,
          nDone := s.nDone + 1, results := s.results }

/-- Reachability under the pool semantics. -/
inductive PoolReaches (process : ImageResult → ImageResult) :
    PoolState → PoolState → Prop where
  | refl (s : PoolState) : PoolReaches process s s
  | tail {s t u : PoolState} (hst : PoolReaches process s t)
      (htu : PoolStep process t u) : PoolReaches process s u

/-- Initial pool state of a run over the given rows with the given
concurrency: the queue and the result collection both hold the freshly built
pending records, all workers are idle. -/
def initPoolState (rows : List CsvRow) (concurrency : Nat) : PoolState :=
  { queue := rows.map initResult, nIdle := concurrency, busy := [],
    nDone := 0, results := rows.map initResult }

/-- All workers have left their loops: none idle, none busy. -/
def allDone (s : PoolState) : Prop :=
  s.nIdle = 0 ∧ s.busy = []

/-- A terminal task status. -/
def terminalStatus (s : GenerationStatus) : Prop :=
  s = GenerationStatus.success ∨ s = GenerationStatus.error

def poolInv (W n : Nat) (s : PoolState) : Prop :=
  s.results.length = n ∧
  s.nIdle + s.busy.length + s.nDone = W ∧
  (0 < s.nDone → s.queue = []) ∧
  (∀ r ∈ s.results, terminalStatus r.status ∨
    (∃ t ∈ s.queue, t.id = r.id) ∨ (∃ t ∈ s.busy, t.id = r.id))

def sampleTask : ImageResult :=
  { id := "1", prompt := "a cat", imageUrl := none,
    status := GenerationStatus.pending, error := none }

def rlSampleError : ApiError :=
  { code429 := true, rateLimitCode := false, resourceExhausted := false,
    quotaExceededText := false, billedUsersText := false, nestedMessage := none,
    message := "rate limited" }

def quotaSampleError : ApiError :=
  { code429 := false, rateLimitCode := false, resourceExhausted := false,
    quotaExceededText := true, billedUsersText := false,
    nestedMessage := some "Quota exceeded for the project.",
    message := "quota exceeded" }

def autoCfg2 : GenConfig :=
  { provider := "google", isManualKeySelection := false, poolSize := 2,
    activeKeyIndex := 0, anonymizeEnabled := false, googleKeyCount := 0,
    googleCursorValid := false }

def manualCfg2 : GenConfig :=
  { provider := "google", isManualKeySelection := true, poolSize := 2,
    activeKeyIndex := 1, anonymizeEnabled := false, googleKeyCount := 0,
    googleCursorValid := false }

def noKeysCfg : GenConfig :=
  { provider := "openai", isManualKeySelection := false, poolSize := 0,
    activeKeyIndex := 0, anonymizeEnabled := false, googleKeyCount := 0,
    googleCursorValid := false }

def anonCfg : GenConfig :=
  { provider := "google", isManualKeySelection := false, poolSize := 1,
    activeKeyIndex := 0, anonymizeEnabled := true, googleKeyCount := 1,
    googleCursorValid := true }

def execAllRL : Nat → ExecOutcome := fun _ => ExecOutcome.failure rlSampleError

def execSecondOk : Nat → ExecOutcome := fun a =>
  if a = 0 then ExecOutcome.failure rlSampleError else ExecOutcome.success "imgdata"

def execQuota : Nat → ExecOutcome := fun _ => ExecOutcome.failure quotaSampleError

def execSafety : Nat → ExecOutcome := fun _ => ExecOutcome.failure safetyRejectionError

def execOk : Nat → ExecOutcome := fun _ => ExecOutcome.success "imgdata"

def anonThrows : Nat → AnonOutcome := fun _ => AnonOutcome.throws

def c3State : KeyPoolState := { keys := ["alpha", "beta"], cursor := 1 }

def rowC8 (n : Int) : RowN := { idNum := n, prompt := "p" }

def rowsC8 : List RowN := [rowC8 1, rowC8 2, rowC8 3, rowC8 5, rowC8 8]

def rowsEx : List CsvRow := [{ id := "1", prompt := "a cat" }]

def processEx : ImageResult → ImageResult := fun t =>
  (generateSingleImage noKeysCfg execAllRL anonThrows t 0 0).result

def sFinalEx : PoolState :=
  { queue := [], nIdle := 0, busy := [], nDone := 1,
    results := [processEx (initResult { id := "1", prompt := "a cat" })] }

theorem gsiGo_calls_length_le (cfg : GenConfig) (exec : Nat → ExecOutcome)
    (anon : Nat → AnonOutcome) (task : ImageResult) (cursor : Nat)
    (hmode : cfg.isManualKeySelection = false) :
    ∀ fuel attempt,
      (gsiGo cfg exec anon task cursor attempt fuel).calls.length ≤
        cfg.poolSize - attempt := by
  intro fuel
  induction fuel with
  | zero =>
    intro attempt
    rw [gsiGo]
    simp only [hmode, Bool.false_eq_true, if_false]
    split
    · simp
    · split
      · simp
      · split
        · simp
          omega
        · split
          · simp
          · simp
            omega
  | succ fuel2 ih =>
    intro attempt
    rw [gsiGo]
    simp only [hmode, Bool.false_eq_true, if_false]
    split
    · simp
    · split
      · simp
      · split
        · simp
          omega
        · split
          · simp only [List.length_cons]
            have := ih (attempt + 1)
            omega
          · simp
            omega

theorem gsiGo_all_rl (cfg : GenConfig) (exec : Nat → ExecOutcome)
    (anon : Nat → AnonOutcome) (task : ImageResult) (cursor : Nat)
    (hmode : cfg.isManualKeySelection = false) (hP : 0 < cfg.poolSize) :
    ∀ fuel attempt, cfg.poolSize ≤ fuel + attempt →
      (∀ k, attempt ≤ k → k < cfg.poolSize →
        ∃ e, exec k = ExecOutcome.failure e ∧ isRateLimitError e = true) →
      (gsiGo cfg exec anon task cursor attempt fuel).result.status =
          GenerationStatus.error ∧
      (gsiGo cfg exec anon task cursor attempt fuel).result.error =
          some "All API keys are rate-limited or invalid." ∧
      (gsiGo cfg exec anon task cursor attempt fuel).calls.map Prod.fst =
          (List.range' attempt (cfg.poolSize - attempt)).map
            (fun k => (cursor + k) % cfg.poolSize) := by
  intro fuel
  induction fuel with
  | zero =>
    intro attempt hfuel hRL
    rw [gsiGo]
    simp only [hmode, Bool.false_eq_true, if_false]
    split
    · omega
    · split
      · have h0 : cfg.poolSize - attempt = 0 := by omega
        simp [h0]
      · omega
  | succ fuel2 ih =>
    intro attempt hfuel hRL
    rw [gsiGo]
    simp only [hmode, Bool.false_eq_true, if_false]
    split
    · omega
    · split
      · have h0 : cfg.poolSize - attempt = 0 := by omega
        simp [h0]
      · obtain ⟨e, he, hrl⟩ := hRL attempt le_rfl (by omega)
        rw [he]
        simp only [hrl, if_true]
        have hrest := ih (attempt + 1) (by omega)
          (fun k hk1 hk2 => hRL k (by omega) hk2)
        have hm : cfg.poolSize - attempt = (cfg.poolSize - (attempt + 1)) + 1 := by
          omega
        rw [hm, List.range'_succ]
        simp only [List.map_cons, List.map]
        exact ⟨hrest.1, hrest.2.1, by rw [hrest.2.2]⟩

theorem gsiGo_error_frame (cfg : GenConfig) (exec : Nat → ExecOutcome)
    (anon : Nat → AnonOutcome) (task : ImageResult) (cursor : Nat)
    (hmode : cfg.isManualKeySelection = false) :
    ∀ fuel attempt,
      (gsiGo cfg exec anon task cursor attempt fuel).result.status =
          GenerationStatus.error →
      (gsiGo cfg exec anon task cursor attempt fuel).cursor = cursor ∧
      (gsiGo cfg exec anon task cursor attempt fuel).activeIdx =
          cfg.activeKeyIndex := by
  intro fuel
  induction fuel with
  | zero =>
    intro attempt
    rw [gsiGo]
    simp only [hmode, Bool.false_eq_true, if_false]
    split
    · intro _; exact ⟨rfl, rfl⟩
    · split
      · intro _; exact ⟨rfl, rfl⟩
      · split
        · intro h; exact absurd h (by simp)
        · split
          · intro _; exact ⟨rfl, rfl⟩
          · intro _; exact ⟨rfl, rfl⟩
  | succ fuel2 ih =>
    intro attempt
    rw [gsiGo]
    simp only [hmode, Bool.false_eq_true, if_false]
    split
    · intro _; exact ⟨rfl, rfl⟩
    · split
      · intro _; exact ⟨rfl, rfl⟩
      · split
        · intro h; exact absurd h (by simp)
        · split
          · intro h
            exact ih (attempt + 1) h
          · intro _; exact ⟨rfl, rfl⟩

theorem gsiGo_success_advance (cfg : GenConfig) (exec : Nat → ExecOutcome)
    (anon : Nat → AnonOutcome) (task : ImageResult) (cursor : Nat)
    (hmode : cfg.isManualKeySelection = false) :
    ∀ m fuel attempt url, m ≤ fuel → attempt + m < cfg.poolSize →
      (∀ j, attempt ≤ j → j < attempt + m →
        ∃ e, exec j = ExecOutcome.failure e ∧ isRateLimitError e = true) →
      exec (attempt + m) = ExecOutcome.success url →
      (gsiGo cfg exec anon task cursor attempt fuel).result.status =
          GenerationStatus.success ∧
      (gsiGo cfg exec anon task cursor attempt fuel).result.imageUrl = some url ∧
      (gsiGo cfg exec anon task cursor attempt fuel).cursor =
          (cursor + (attempt + m)) % cfg.poolSize ∧
      (gsiGo cfg exec anon task cursor attempt fuel).activeIdx =
          (cursor + (attempt + m)) % cfg.poolSize := by
  intro m
  induction m with
  | zero =>
    intro fuel attempt url _ hlt hRL hs
    rw [gsiGo]
    simp only [hmode, Bool.false_eq_true, if_false]
    split
    · omega
    · split
      · omega
      · rw [show attempt + 0 = attempt from rfl] at hs
        rw [hs]
        exact ⟨rfl, rfl, rfl, rfl⟩
  | succ m2 ih =>
    intro fuel attempt url hfuel hlt hRL hs
    obtain ⟨fuel2, rfl⟩ : ∃ f, fuel = f + 1 := ⟨fuel - 1, by omega⟩
    rw [gsiGo]
    simp only [hmode, Bool.false_eq_true, if_false]
    split
    · omega
    · split
      · omega
      · obtain ⟨e, he, hrl⟩ := hRL attempt le_rfl (by omega)
        rw [he]
        simp only [hrl, if_true]
        have harith : attempt + 1 + m2 = attempt + (m2 + 1) := by omega
        have hrest := ih fuel2 (attempt + 1) url (by omega) (by omega)
          (fun j hj1 hj2 => hRL j (by omega) (by omega))
          (by rw [harith]; exact hs)
        rw [harith] at hrest
        exact hrest

theorem gsiGo_calls_index_lt (cfg : GenConfig) (exec : Nat → ExecOutcome)
    (anon : Nat → AnonOutcome) (task : ImageResult) (cursor : Nat)
    (hmode : cfg.isManualKeySelection = false) :
    ∀ fuel attempt p, p ∈ (gsiGo cfg exec anon task cursor attempt fuel).calls →
      p.1 < cfg.poolSize := by
  intro fuel
  induction fuel with
  | zero =>
    intro attempt p
    rw [gsiGo]
    simp only [hmode, Bool.false_eq_true, if_false]
    split
    · simp
    · split
      · simp
      · split
        · intro hp
          simp at hp
          rw [hp]
          exact Nat.mod_lt _ (by omega)
        · split
          · simp
          · intro hp
            simp at hp
            rw [hp]
            exact Nat.mod_lt _ (by omega)
  | succ fuel2 ih =>
    intro attempt p
    rw [gsiGo]
    simp only [hmode, Bool.false_eq_true, if_false]
    split
    · simp
    · split
      · simp
      · split
        · intro hp
          simp at hp
          rw [hp]
          exact Nat.mod_lt _ (by omega)
        · split
          · intro hp
            simp only [List.mem_cons] at hp
            rcases hp with hp | hp
            · rw [hp]
              exact Nat.mod_lt _ (by omega)
            · exact ih (attempt + 1) p hp
          · intro hp
            simp at hp
            rw [hp]
            exact Nat.mod_lt _ (by omega)

theorem gsiGo_calls_prompt (cfg : GenConfig) (exec : Nat → ExecOutcome)
    (anon : Nat → AnonOutcome) (task : ImageResult) (cursor : Nat)
    (hpr : ∀ k, promptForApi cfg anon k task.prompt = task.prompt) :
    ∀ fuel attempt p, p ∈ (gsiGo cfg exec anon task cursor attempt fuel).calls →
      p.2 = task.prompt := by
  intro fuel
  induction fuel with
  | zero =>
    intro attempt p
    rw [gsiGo]
    split
    · simp
    · split
      · split
        · simp
        · split
          · intro hp
            simp at hp
            rw [hp]
            exact hpr attempt
          · intro hp
            simp at hp
            rw [hp]
            exact hpr attempt
      · split
        · simp
        · split
          · intro hp
            simp at hp
            rw [hp]
            exact hpr attempt
          · split
            · simp
            · intro hp
              simp at hp
              rw [hp]
              exact hpr attempt
  | succ fuel2 ih =>
    intro attempt p
    rw [gsiGo]
    split
    · simp
    · split
      · split
        · simp
        · split
          · intro hp
            simp at hp
            rw [hp]
            exact hpr attempt
          · intro hp
            simp at hp
            rw [hp]
            exact hpr attempt
      · split
        · simp
        · split
          · intro hp
            simp at hp
            rw [hp]
            exact hpr attempt
          · split
            · intro hp
              simp only [List.mem_cons] at hp
              rcases hp with hp | hp
              · rw [hp]
                exact hpr attempt
              · exact ih (attempt + 1) p hp
            · intro hp
              simp at hp
              rw [hp]
              exact hpr attempt

theorem gsiGo_manual_frame (cfg : GenConfig) (exec : Nat → ExecOutcome)
    (anon : Nat → AnonOutcome) (task : ImageResult) (cursor : Nat)
    (hmanual : cfg.isManualKeySelection = true) :
    ∀ fuel attempt,
      (gsiGo cfg exec anon task cursor attempt fuel).cursor = cursor ∧
      (gsiGo cfg exec anon task cursor attempt fuel).activeIdx =
        cfg.activeKeyIndex := by
  intro fuel attempt
  rw [gsiGo]
  simp only [hmanual, if_true]
  split
  · exact ⟨rfl, rfl⟩
  · split
    · exact ⟨rfl, rfl⟩
    · split
      · exact ⟨rfl, rfl⟩
      · exact ⟨rfl, rfl⟩

theorem gsiGo_manual_attempt0 (cfg : GenConfig) (exec : Nat → ExecOutcome)
    (anon : Nat → AnonOutcome) (task : ImageResult) (cursor : Nat)
    (hmanual : cfg.isManualKeySelection = true) (hP : cfg.poolSize ≠ 0) :
    ∀ fuel,
      (gsiGo cfg exec anon task cursor 0 fuel).calls =
        [(cfg.activeKeyIndex, promptForApi cfg anon 0 task.prompt)] ∧
      (∀ e, exec 0 = ExecOutcome.failure e →
        (gsiGo cfg exec anon task cursor 0 fuel).result.status =
            GenerationStatus.error ∧
        (gsiGo cfg exec anon task cursor 0 fuel).result.error =
            some (handleError cfg.provider e)) ∧
      (∀ url, exec 0 = ExecOutcome.success url →
        (gsiGo cfg exec anon task cursor 0 fuel).result.status =
            GenerationStatus.success ∧
        (gsiGo cfg exec anon task cursor 0 fuel).result.imageUrl = some url) := by
  intro fuel
  rw [gsiGo]
  simp only [hmanual, if_true, hP, if_false, Nat.lt_irrefl]
  rcases h : exec 0 with url | e
  · refine ⟨rfl, ?_, ?_⟩
    · intro e2 he
      simp at he
    · intro url2 hu
      simp at hu
      subst hu
      exact ⟨rfl, rfl⟩
  · refine ⟨rfl, ?_, ?_⟩
    · intro e2 he
      simp at he
      subst he
      exact ⟨rfl, rfl⟩
    · intro url hu
      simp at hu

theorem gsiGo_other_failure (cfg : GenConfig) (exec : Nat → ExecOutcome)
    (anon : Nat → AnonOutcome) (task : ImageResult) (cursor : Nat)
    (hmode : cfg.isManualKeySelection = false) (hP : 0 < cfg.poolSize) :
    ∀ fuel e, exec 0 = ExecOutcome.failure e → isRateLimitError e = false →
      (gsiGo cfg exec anon task cursor 0 fuel).result.status =
          GenerationStatus.error ∧
      (gsiGo cfg exec anon task cursor 0 fuel).result.error =
          some (handleError cfg.provider e) ∧
      (gsiGo cfg exec anon task cursor 0 fuel).calls.length = 1 ∧
      (gsiGo cfg exec anon task cursor 0 fuel).cursor = cursor ∧
      (gsiGo cfg exec anon task cursor 0 fuel).activeIdx =
          cfg.activeKeyIndex := by
  intro fuel e he hrl
  rw [gsiGo]
  simp only [hmode, Bool.false_eq_true, if_false]
  split
  · omega
  · split
    · omega
    · rw [he]
      simp [hrl]


theorem poolStep_inv (process : ImageResult → ImageResult)
    (hterm : ∀ t, terminalStatus (process t).status)
    (hid : ∀ t, (process t).id = t.id) (W n : Nat) (s s2 : PoolState)
    (hinv : poolInv W n s) (hstep : PoolStep process s s2) : poolInv W n s2 := by
  obtain ⟨hlen, hcount, hdone, hcov⟩ := hinv
  cases hstep with
  | pop t rest hIdle hq =>
    refine ⟨?_, ?_, ?_, ?_⟩
    · simp only [markGenerating, List.length_map]
      exact hlen
    · simp only [List.length_cons]
      omega
    · intro hd
      have := hdone hd
      rw [hq] at this
      exact absurd this (by simp)
    · intro r hr
      simp only [markGenerating, List.mem_map] at hr
      obtain ⟨r0, hr0, hr0eq⟩ := hr
      by_cases hcase : r0.id = t.id
      · right; right
        refine ⟨t, List.mem_cons_self t s.busy, ?_⟩
        rw [← hr0eq]
        simp [hcase]
      · rw [if_neg hcase] at hr0eq
        subst hr0eq
        rcases hcov r0 hr0 with h | ⟨t2, ht2, ht2id⟩ | ⟨t2, ht2, ht2id⟩
        · exact Or.inl h
        · rw [hq] at ht2
          rcases List.mem_cons.mp ht2 with h2 | h2
          · subst h2
            exact absurd ht2id.symm hcase
          · exact Or.inr (Or.inl ⟨t2, h2, ht2id⟩)
        · exact Or.inr (Or.inr ⟨t2, List.mem_cons_of_mem t ht2, ht2id⟩)
  | finish t b1 b2 hb =>
    refine ⟨?_, ?_, ?_, ?_⟩
    · simp only [writeResult, List.length_map]
      exact hlen
    · have : s.busy.length = b1.length + 1 + b2.length := by
        rw [hb]; simp; omega
      simp only [List.length_append]
      omega
    · exact hdone
    · intro r hr
      simp only [writeResult, List.mem_map] at hr
      obtain ⟨r0, hr0, hr0eq⟩ := hr
      by_cases hcase : r0.id = (process t).id
      · rw [if_pos hcase] at hr0eq
        subst hr0eq
        exact Or.inl (hterm t)
      · rw [if_neg hcase] at hr0eq
        subst hr0eq
        rw [hid t] at hcase
        rcases hcov r0 hr0 with h | ⟨t2, ht2, ht2id⟩ | ⟨t2, ht2, ht2id⟩
        · exact Or.inl h
        · exact Or.inr (Or.inl ⟨t2, ht2, ht2id⟩)
        · rw [hb] at ht2
          simp only [List.mem_append, List.mem_cons] at ht2
          rcases ht2 with h2 | h2 | h2
          · exact Or.inr (Or.inr ⟨t2, List.mem_append.mpr (Or.inl h2), ht2id⟩)
          · subst h2
            exact absurd ht2id.symm hcase
          · exact Or.inr (Or.inr ⟨t2, List.mem_append.mpr (Or.inr h2), ht2id⟩)
  | exit hIdle hq =>
    exact ⟨hlen, by simp; omega, fun _ => hq, hcov⟩

theorem poolReaches_inv (process : ImageResult → ImageResult)
    (hterm : ∀ t, terminalStatus (process t).status)
    (hid : ∀ t, (process t).id = t.id) (W n : Nat) (s s2 : PoolState)
    (hinv : poolInv W n s) (hrun : PoolReaches process s s2) : poolInv W n s2 := by
  induction hrun with
  | refl => exact hinv
  | tail hst htu ih => exact poolStep_inv process hterm hid W n _ _ ih htu

theorem poolInv_init (rows : List CsvRow) (W : Nat) :
    poolInv W rows.length (initPoolState rows W) := by
  refine ⟨by simp [initPoolState], by simp [initPoolState],
    by simp [initPoolState], ?_⟩
  intro r hr
  exact Or.inr (Or.inl ⟨r, hr, rfl⟩)

theorem rangeFilter_sublist (rows : List RowN) (startNum endNum : Int) :
    List.Sublist (rangeFilter rows startNum endNum) rows :=
  List.filter_sublist rows

theorem rangeFilter_mem (rows : List RowN) (startNum endNum : Int) (p : RowN) :
    p ∈ rangeFilter rows startNum endNum ↔
      p ∈ rows ∧ startNum ≤ p.idNum ∧ p.idNum ≤ endNum := by
  simp [rangeFilter, List.mem_filter, and_assoc]

theorem handleStartGeneration_range (provider : String) (rows : List RowN)
    (keysCount : Nat) (startNum endNum : Int)
    (hrows : rows ≠ []) (hkeys : keysCount ≠ 0) (hle : startNum ≤ endNum) :
    (rangeFilter rows startNum endNum ≠ [] →
      handleStartGeneration provider rows keysCount (some (startNum, endNum)) =
        StartOutcome.runStarted (rangeFilter rows startNum endNum)) ∧
    (rangeFilter rows startNum endNum = [] →
      handleStartGeneration provider rows keysCount (some (startNum, endNum)) =
        StartOutcome.validationAlert "No prompts found in the specified range.") := by
  constructor
  · intro hne
    simp only [handleStartGeneration, List.isEmpty_iff]
    rw [if_neg hrows, if_neg hkeys, if_neg (by omega : ¬endNum < startNum),
      if_neg hne]
  · intro hemp
    simp only [handleStartGeneration, List.isEmpty_iff]
    rw [if_neg hrows, if_neg hkeys, if_neg (by omega : ¬endNum < startNum),
      if_pos hemp]


/-- C1: in automatic mode over a non-empty key pool, generateSingleImage
makes at most poolSize executor calls per task; under consecutive
rate-limited failures attempt k uses key index (cursor + k) mod poolSize,
and after exactly poolSize rate-limited failures it returns a terminal
error result with the all-keys-exhausted message and makes no further
executor call. -/
theorem c1_automatic_rotation_bound (cfg : GenConfig) (exec : Nat → ExecOutcome)
    (anon : Nat → AnonOutcome) (task : ImageResult) (cursor : Nat)
    (hmode : cfg.isManualKeySelection = false) (hP : 0 < cfg.poolSize)
    (hRL : ∀ k, k < cfg.poolSize →
      ∃ e, exec k = ExecOutcome.failure e ∧ isRateLimitError e = true) :
    (∀ exec2 : Nat → ExecOutcome,
      (generateSingleImage cfg exec2 anon task cursor 0).calls.length ≤
        cfg.poolSize) ∧
    (generateSingleImage cfg exec anon task cursor 0).calls.map Prod.fst =
      (List.range cfg.poolSize).map (fun k => (cursor + k) % cfg.poolSize) ∧
    (generateSingleImage cfg exec anon task cursor 0).calls.length =
      cfg.poolSize ∧
    (generateSingleImage cfg exec anon task cursor 0).result.status =
      GenerationStatus.error ∧
    (generateSingleImage cfg exec anon task cursor 0).result.error =
      some "All API keys are rate-limited or invalid." := by
  have hall := gsiGo_all_rl cfg exec anon task cursor hmode hP cfg.poolSize 0
    (by omega) (fun k _ hk2 => hRL k hk2)
  have hmap : (generateSingleImage cfg exec anon task cursor 0).calls.map Prod.fst =
      (List.range cfg.poolSize).map (fun k => (cursor + k) % cfg.poolSize) := by
    rw [List.range_eq_range']
    have h2 := hall.2.2
    rw [Nat.sub_zero] at h2
    exact h2
  refine ⟨?_, hmap, ?_, hall.1, hall.2.1⟩
  · intro exec2
    have h3 := gsiGo_calls_length_le cfg exec2 anon task cursor hmode
      cfg.poolSize 0
    rw [Nat.sub_zero] at h3
    exact h3
  · have h4 := congrArg List.length hmap
    simpa using h4

theorem c1_witness :
    (generateSingleImage autoCfg2 execAllRL anonThrows sampleTask 0 0).result.error =
      some "All API keys are rate-limited or invalid." :=
  (c1_automatic_rotation_bound autoCfg2 execAllRL anonThrows sampleTask 0 rfl
    (by decide) (fun k _ => ⟨rlSampleError, rfl, rfl⟩)).2.2.2.2

/-- C2 counterexample: in manual mode a rate-limited failure on the single
attempt returns the provider-extracted error message, not the dedicated
message about the manually selected key being unusable. -/
theorem c2_counterexample :
    isRateLimitError quotaSampleError = true ∧
    (generateSingleImage manualCfg2 execQuota anonThrows sampleTask 0 0).result.status =
      GenerationStatus.error ∧
    (generateSingleImage manualCfg2 execQuota anonThrows sampleTask 0 0).result.error =
      some "Quota exceeded for the project." ∧
    (generateSingleImage manualCfg2 execQuota anonThrows sampleTask 0 0).result.error ≠
      some "The manually selected API key is rate-limited or invalid." := by
  refine ⟨rfl, rfl, rfl, ?_⟩
  decide

/-- C2 (amended): in manual mode over a non-empty pool, generateSingleImage
makes exactly one executor call, using the operator-selected key index; any
failure, including a rate-limited one, yields a terminal error result whose
message is the provider-extracted error message (handleError), with no
fallback to another key. -/
theorem c2_manual_single_attempt (cfg : GenConfig) (exec : Nat → ExecOutcome)
    (anon : Nat → AnonOutcome) (task : ImageResult) (cursor : Nat)
    (hmanual : cfg.isManualKeySelection = true) (hP : cfg.poolSize ≠ 0) :
    (generateSingleImage cfg exec anon task cursor 0).calls =
      [(cfg.activeKeyIndex, promptForApi cfg anon 0 task.prompt)] ∧
    (∀ e, exec 0 = ExecOutcome.failure e →
      (generateSingleImage cfg exec anon task cursor 0).result.status =
          GenerationStatus.error ∧
      (generateSingleImage cfg exec anon task cursor 0).result.error =
          some (handleError cfg.provider e)) ∧
    (∀ url, exec 0 = ExecOutcome.success url →
      (generateSingleImage cfg exec anon task cursor 0).result.status =
          GenerationStatus.success ∧
      (generateSingleImage cfg exec anon task cursor 0).result.imageUrl =
          some url) :=
  gsiGo_manual_attempt0 cfg exec anon task cursor hmanual hP cfg.poolSize

theorem c2_witness :
    (generateSingleImage manualCfg2 execQuota anonThrows sampleTask 0 0).result.status =
      GenerationStatus.error :=
  ((c2_manual_single_attempt manualCfg2 execQuota anonThrows sampleTask 0 rfl
    (by decide)).2.1 quotaSampleError rfl).1

/-- C3 counterexample: removing a key does not reset the rotation cursor, so
after removing the first of two keys while the cursor is 1 the cursor no
longer indexes a valid position of the shrunk list. -/
theorem c3_counterexample :
    (handleRemoveKey c3State "alpha").cursor = 1 ∧
    (handleRemoveKey c3State "alpha").keys.length = 1 ∧
    ¬((handleRemoveKey c3State "alpha").cursor <
        (handleRemoveKey c3State "alpha").keys.length) := by
  decide

/-- C3 (amended): key-list mutations do not reset the rotation cursor (both
removal and addition leave it unchanged, so it can point past the end of a
shrunk list); nevertheless every executor call of an automatic-mode
generateSingleImage run uses an in-range key index, because the index is
reduced modulo the current pool size. -/
theorem c3_cursor_not_reset (st : KeyPoolState) (keyToRemove : String)
    (newKeys : List String) :
    (handleRemoveKey st keyToRemove).cursor = st.cursor ∧
    (handleAddKeys st newKeys).cursor = st.cursor ∧
    (∀ cfg exec anon task cursor,
      cfg.isManualKeySelection = false →
      ∀ p ∈ (generateSingleImage cfg exec anon task cursor 0).calls,
        p.1 < cfg.poolSize) := by
  refine ⟨rfl, rfl, ?_⟩
  intro cfg exec anon task cursor hmode p hp
  exact gsiGo_calls_index_lt cfg exec anon task cursor hmode cfg.poolSize 0 p hp

theorem c3_witness :
    ((0 : Nat), sampleTask.prompt).1 < autoCfg2.poolSize :=
  (c3_cursor_not_reset c3State "alpha" []).2.2 autoCfg2 execAllRL anonThrows
    sampleTask 0 rfl ((0 : Nat), sampleTask.prompt) (by decide)

/-- C4: with an empty key pool for the selected provider no executor call is
made and the task resolves immediately to a terminal error indicating no
credentials; moreover handleStartGeneration with zero keys never starts a
run but raises a validation alert. -/
theorem c4_no_credentials (cfg : GenConfig) (exec : Nat → ExecOutcome)
    (anon : Nat → AnonOutcome) (task : ImageResult) (cursor attempt : Nat)
    (h0 : cfg.poolSize = 0) :
    (generateSingleImage cfg exec anon task cursor attempt).calls = [] ∧
    (generateSingleImage cfg exec anon task cursor attempt).result.status =
      GenerationStatus.error ∧
    (generateSingleImage cfg exec anon task cursor attempt).result.error =
      some ("No API keys provided for " ++ cfg.provider ++ ".") ∧
    (∀ provider rows range, ∃ msg,
      handleStartGeneration provider rows 0 range =
        StartOutcome.validationAlert msg) := by
  refine ⟨?_, ?_, ?_, ?_⟩
  · rw [generateSingleImage, gsiGo, if_pos h0]
  · rw [generateSingleImage, gsiGo, if_pos h0]
  · rw [generateSingleImage, gsiGo, if_pos h0]
  · intro provider rows range
    by_cases hrows : rows.isEmpty
    · exact ⟨_, by rw [handleStartGeneration.eq_def, if_pos hrows]⟩
    · exact ⟨_, by rw [handleStartGeneration.eq_def, if_neg hrows, if_pos rfl]⟩

theorem c4_witness :
    (generateSingleImage noKeysCfg execAllRL anonThrows sampleTask 0 0).calls = [] :=
  (c4_no_credentials noKeysCfg execAllRL anonThrows sampleTask 0 0 rfl).1

/-- C5: a failure not classified as rate limited (in particular the
content-safety rejection error, which carries none of the rate-limit
signals) terminates the task immediately in automatic mode with the
extracted error message, after a single executor call and without touching
the rotation cursor. -/
theorem c5_other_failure_terminal (cfg : GenConfig) (exec : Nat → ExecOutcome)
    (anon : Nat → AnonOutcome) (task : ImageResult) (cursor : Nat)
    (hmode : cfg.isManualKeySelection = false) (hP : 0 < cfg.poolSize) :
    isRateLimitError safetyRejectionError = false ∧
    (∀ e, exec 0 = ExecOutcome.failure e → isRateLimitError e = false →
      (generateSingleImage cfg exec anon task cursor 0).result.status =
          GenerationStatus.error ∧
      (generateSingleImage cfg exec anon task cursor 0).result.error =
          some (handleError cfg.provider e) ∧
      (generateSingleImage cfg exec anon task cursor 0).calls.length = 1 ∧
      (generateSingleImage cfg exec anon task cursor 0).cursor = cursor ∧
      (generateSingleImage cfg exec anon task cursor 0).activeIdx =
          cfg.activeKeyIndex) := by
  refine ⟨rfl, ?_⟩
  intro e he hrl
  exact gsiGo_other_failure cfg exec anon task cursor hmode hP cfg.poolSize e he hrl

theorem c5_witness :
    (generateSingleImage autoCfg2 execSafety anonThrows sampleTask 0 0).result.error =
      some (handleError autoCfg2.provider safetyRejectionError) :=
  ((c5_other_failure_terminal autoCfg2 execSafety anonThrows sampleTask 0 rfl
    (by decide)).2 safetyRejectionError rfl rfl).2.1

/-- C6: the rotation cursor is advanced only on success: whenever an
automatic-mode task ends in error the cursor and the displayed key index are
unchanged, and when attempt k succeeds after k rate-limited failures the
cursor is set to the index of the key that succeeded, (cursor + k) mod
poolSize. -/
theorem c6_cursor_advance (cfg : GenConfig) (exec : Nat → ExecOutcome)
    (anon : Nat → AnonOutcome) (task : ImageResult) (cursor : Nat)
    (hmode : cfg.isManualKeySelection = false) :
    (∀ exec2 : Nat → ExecOutcome,
      (generateSingleImage cfg exec2 anon task cursor 0).result.status =
          GenerationStatus.error →
      (generateSingleImage cfg exec2 anon task cursor 0).cursor = cursor ∧
      (generateSingleImage cfg exec2 anon task cursor 0).activeIdx =
          cfg.activeKeyIndex) ∧
    (∀ k url, k < cfg.poolSize →
      (∀ j, j < k →
        ∃ e, exec j = ExecOutcome.failure e ∧ isRateLimitError e = true) →
      exec k = ExecOutcome.success url →
      (generateSingleImage cfg exec anon task cursor 0).result.status =
          GenerationStatus.success ∧
      (generateSingleImage cfg exec anon task cursor 0).cursor =
          (cursor + k) % cfg.poolSize ∧
      (generateSingleImage cfg exec anon task cursor 0).activeIdx =
          (cursor + k) % cfg.poolSize) := by
  constructor
  · intro exec2 h
    exact gsiGo_error_frame cfg exec2 anon task cursor hmode cfg.poolSize 0 h
  · intro k url hk hRL hs
    have h := gsiGo_success_advance cfg exec anon task cursor hmode k
      cfg.poolSize 0 url (by omega) (by omega)
      (fun j _ hj2 => hRL j (by omega)) (by rw [Nat.zero_add]; exact hs)
    rw [Nat.zero_add] at h
    exact ⟨h.1, h.2.2.1, h.2.2.2⟩

theorem c6_witness :
    (generateSingleImage autoCfg2 execSecondOk anonThrows sampleTask 0 0).cursor =
      (0 + 1) % autoCfg2.poolSize :=
  ((c6_cursor_advance autoCfg2 execSecondOk anonThrows sampleTask 0 rfl).2
    1 "imgdata" (by decide)
    (fun j hj => by
      have hj0 : j = 0 := by omega
      subst hj0
      exact ⟨rlSampleError, rfl, rfl⟩) rfl).2.1

/-- C7: for every task list and every positive concurrency, any completed
run of the worker pool (all workers have left their loops) leaves the shared
queue empty, keeps exactly one result record per input task, and leaves no
record in a non-terminal status. -/
theorem c7_pool_drains (process : ImageResult → ImageResult)
    (rows : List CsvRow) (W : Nat) (s : PoolState)
    (hterm : ∀ t, terminalStatus (process t).status)
    (hid : ∀ t, (process t).id = t.id)
    (hW : 1 ≤ W)
    (hrun : PoolReaches process (initPoolState rows W) s)
    (hdone : allDone s) :
    s.queue = [] ∧ s.results.length = rows.length ∧
      ∀ r ∈ s.results, terminalStatus r.status := by
  have hinv := poolReaches_inv process hterm hid W rows.length
    (initPoolState rows W) s (poolInv_init rows W) hrun
  obtain ⟨hlen, hcount, hdq, hcov⟩ := hinv
  obtain ⟨hni, hbz⟩ := hdone
  have hq : s.queue = [] := by
    apply hdq
    rw [hni, hbz] at hcount
    simp at hcount
    omega
  refine ⟨hq, hlen, ?_⟩
  intro r hr
  rcases hcov r hr with h | ⟨t, ht, _⟩ | ⟨t, ht, _⟩
  · exact h
  · rw [hq] at ht
    exact absurd ht (List.not_mem_nil t)
  · rw [hbz] at ht
    exact absurd ht (List.not_mem_nil t)

theorem c7_witness :
    sFinalEx.queue = [] ∧ sFinalEx.results.length = rowsEx.length ∧
      terminalStatus (processEx (initResult { id := "1", prompt := "a cat" })).status :=
  have h := c7_pool_drains processEx rowsEx 1 sFinalEx
    (fun t => Or.inr rfl) (fun t => rfl) (by decide)
    (PoolReaches.tail
      (PoolReaches.tail
        (PoolReaches.tail (PoolReaches.refl _)
          (PoolStep.pop _ _ _ (by decide) rfl))
        (PoolStep.finish _ _ [] [] rfl))
      (PoolStep.exit _ (by decide) rfl))
    ⟨rfl, rfl⟩
  ⟨h.1, h.2.1, h.2.2 _ (List.Mem.head _)⟩

/-- C8: with a numeric range present, the task list built for a run is
exactly the in-order subsequence of records whose numeric id lies in the
range; an empty filtered result yields a user-facing validation alert and no
run is started; on ids 1, 2, 3, 5, 8 with range 2 to 5 exactly the records
2, 3 and 5 are kept. -/
theorem c8_range_selection (provider : String) (rows : List RowN)
    (keysCount : Nat) (startNum endNum : Int)
    (hrows : rows ≠ []) (hkeys : keysCount ≠ 0) (hle : startNum ≤ endNum) :
    List.Sublist (rangeFilter rows startNum endNum) rows ∧
    (∀ p, p ∈ rangeFilter rows startNum endNum ↔
      p ∈ rows ∧ startNum ≤ p.idNum ∧ p.idNum ≤ endNum) ∧
    (rangeFilter rows startNum endNum ≠ [] →
      handleStartGeneration provider rows keysCount (some (startNum, endNum)) =
        StartOutcome.runStarted (rangeFilter rows startNum endNum)) ∧
    (rangeFilter rows startNum endNum = [] →
      handleStartGeneration provider rows keysCount (some (startNum, endNum)) =
        StartOutcome.validationAlert "No prompts found in the specified range.") ∧
    rangeFilter rowsC8 2 5 = [rowC8 2, rowC8 3, rowC8 5] := by
  refine ⟨rangeFilter_sublist rows startNum endNum,
    fun p => rangeFilter_mem rows startNum endNum p,
    (handleStartGeneration_range provider rows keysCount startNum endNum
      hrows hkeys hle).1,
    (handleStartGeneration_range provider rows keysCount startNum endNum
      hrows hkeys hle).2, by decide⟩

theorem c8_witness :
    handleStartGeneration "google" rowsC8 1 (some (2, 5)) =
      StartOutcome.runStarted (rangeFilter rowsC8 2 5) :=
  (c8_range_selection "google" rowsC8 1 2 5 (by decide) (by decide)
    (by decide)).2.2.1 (by decide)

/-- C9: in manual mode generateSingleImage never changes the rotation cursor
or the displayed active key index, whatever the outcome of the attempt. -/
theorem c9_manual_mode_frame (cfg : GenConfig) (exec : Nat → ExecOutcome)
    (anon : Nat → AnonOutcome) (task : ImageResult) (cursor attempt : Nat)
    (hmanual : cfg.isManualKeySelection = true) :
    (generateSingleImage cfg exec anon task cursor attempt).cursor = cursor ∧
    (generateSingleImage cfg exec anon task cursor attempt).activeIdx =
      cfg.activeKeyIndex :=
  gsiGo_manual_frame cfg exec anon task cursor hmanual cfg.poolSize attempt

theorem c9_witness :
    (generateSingleImage manualCfg2 execOk anonThrows sampleTask 0 0).cursor = 0 :=
  (c9_manual_mode_frame manualCfg2 execOk anonThrows sampleTask 0 0 rfl).1

/-- C10: prompt anonymization never fails a task: a thrown anonymization
call or an empty returned text falls back to the original prompt, a missing
instance passes the prompt through, and when anonymization is disabled, no
google key exists, or every anonymization call throws, every executor call
of generateSingleImage is made with the original task prompt. -/
theorem c10_anonymization_fallback (cfg : GenConfig) (exec : Nat → ExecOutcome)
    (anon : Nat → AnonOutcome) (task : ImageResult) (cursor : Nat) :
    (∀ p hasInstance, anonymizePrompt hasInstance AnonOutcome.throws p = p) ∧
    (∀ p hasInstance t, t.trim = "" →
      anonymizePrompt hasInstance (AnonOutcome.returns t) p = p) ∧
    (∀ p outcome, anonymizePrompt false outcome p = p) ∧
    ((cfg.anonymizeEnabled = false ∨ cfg.googleKeyCount = 0) →
      ∀ attempt p2,
        p2 ∈ (generateSingleImage cfg exec anon task cursor attempt).calls →
        p2.2 = task.prompt) ∧
    ((∀ k, anon k = AnonOutcome.throws) →
      ∀ attempt p2,
        p2 ∈ (generateSingleImage cfg exec anon task cursor attempt).calls →
        p2.2 = task.prompt) := by
  refine ⟨?_, ?_, ?_, ?_, ?_⟩
  · intro p hasInstance
    cases hasInstance <;> rfl
  · intro p hasInstance t ht
    cases hasInstance
    · rfl
    · simp [anonymizePrompt, ht]
  · intro p outcome
    rfl
  · intro hdis attempt p2 hp2
    refine gsiGo_calls_prompt cfg exec anon task cursor ?_ cfg.poolSize attempt
      p2 hp2
    intro k
    rcases hdis with h | h
    · simp [promptForApi, h]
    · simp [promptForApi, h]
  · intro hthrow attempt p2 hp2
    refine gsiGo_calls_prompt cfg exec anon task cursor ?_ cfg.poolSize attempt
      p2 hp2
    intro k
    rw [promptForApi, hthrow k]
    split
    · rfl
    · rfl

theorem c10_witness :
    ((0 : Nat), sampleTask.prompt).2 = sampleTask.prompt :=
  (c10_anonymization_fallback anonCfg execOk anonThrows sampleTask 0).2.2.2.2
    (fun k => rfl) 0 ((0 : Nat), sampleTask.prompt) (by decide)
